import Mathlib

/-!
Verification development for the ZeroForums0 security layer.

The definitions below are shallow embeddings of the repository's code:

* `frontend/js/crypto.js` — `CryptoManager` (AES-GCM message envelopes,
  RSA-PSS signature verification, base64 transport codec) and the
  `Utils.constantTimeEquals` comparator;
* `backend/crypto/security.ts` — `SecurityManager` (rate limiting, HMAC
  signature-format validation, brute-force lockout);
* `backend/handlers/main.ts` — `parseAndValidateRequest` and the request
  validation pipeline;
* the `AuthManager` CAPTCHA validation logic.

JavaScript numbers holding epoch milliseconds, byte values and lengths are
modelled as `Nat`; byte buffers (`Uint8Array` / `ArrayBuffer`) as
`List Nat` with values below 256; thrown exceptions as `Except` / `Option`
results; the mutable module-level `Map`s as explicit association lists
threaded through the functions.

Platform primitives (WebCrypto `subtle.encrypt` / `subtle.decrypt` for
AES-GCM, `subtle.importKey` / `subtle.verify` for RSA-PSS, and
`TextEncoder` / `TextDecoder`) are not part of the repository; they are
modelled by executable idealizations of their documented contracts, each
marked in its doc comment.
-/

/-! ### Base64 codec (`btoa` / `atob`, used by
`CryptoManager.arrayBufferToBase64` / `base64ToArrayBuffer`) -/

/-- The standard base64 alphabet, as used by `btoa` / `atob`. -/
def b64Alphabet : List Char :=
  ("ABCDEFGHIJKLMNOPQRSTUVWXYZabcdefghijklmnopqrstuvwxyz0123456789+/").data

/-- Character for a 6-bit value. -/
def b64Char (n : Nat) : Char := b64Alphabet.getD n ('A')

/-- 6-bit value of a base64 character; `none` for characters outside the
alphabet (where `atob` throws). -/
def b64Val (c : Char) : Option Nat := b64Alphabet.findIdx? (· == c)

/-- `btoa` on a byte sequence: encode three bytes at a time into four
alphabet characters, padding the final partial group with `=`. -/
def b64EncodeChunks : List Nat → List Char
  | [] => []
  | [b1] => [b64Char (b1 / 4), b64Char (b1 % 4 * 16), '=', '=']
  | [b1, b2] =>
      [b64Char (b1 / 4), b64Char (b1 % 4 * 16 + b2 / 16), b64Char (b2 % 16 * 4), '=']
  | b1 :: b2 :: b3 :: rest =>
      b64Char (b1 / 4) :: b64Char (b1 % 4 * 16 + b2 / 16) ::
        b64Char (b2 % 16 * 4 + b3 / 64) :: b64Char (b3 % 64) :: b64EncodeChunks rest

/-- `atob` on a character sequence: decode four characters at a time,
failing (`none`, i.e. the `atob` exception) on characters outside the
alphabet, misplaced padding, or a length that is not a multiple of four. -/
def b64DecodeChunks : List Char → Option (List Nat)
  | [] => some []
  | c1 :: c2 :: c3 :: c4 :: rest =>
      if rest.isEmpty ∧ c3 = '=' ∧ c4 = '=' then do
        let v1 ← b64Val c1
        let v2 ← b64Val c2
        some [v1 * 4 + v2 / 16]
      else if rest.isEmpty ∧ c4 = '=' then do
        let v1 ← b64Val c1
        let v2 ← b64Val c2
        let v3 ← b64Val c3
        some [v1 * 4 + v2 / 16, v2 % 16 * 16 + v3 / 4]
      else do
        let v1 ← b64Val c1
        let v2 ← b64Val c2
        let v3 ← b64Val c3
        let v4 ← b64Val c4
        let bs ← b64DecodeChunks rest
        some ((v1 * 4 + v2 / 16) :: (v2 % 16 * 16 + v3 / 4) :: (v3 % 4 * 64 + v4) :: bs)
  | _ => none

/-! ### Text codec (`TextEncoder` / `TextDecoder`)

Platform primitives, modelled by their contract: a lossless, injective
encoding of strings into byte sequences with an executable inverse.  The
UTF-8 bit layout is abstracted to a fixed-width four-bytes-per-code-point
layout; every property proved below depends only on losslessness. -/

/-- Big-endian four-byte layout of one code point. -/
def charBytes (c : Char) : List Nat :=
  [c.toNat / 2 ^ 24 % 256, c.toNat / 2 ^ 16 % 256, c.toNat / 2 ^ 8 % 256, c.toNat % 256]

/-- Byte sequence of a character list. -/
def bytesOfChars : List Char → List Nat
  | [] => []
  | c :: cs => charBytes c ++ bytesOfChars cs

/-- Modelled platform primitive: `TextEncoder.encode`. -/
def encoderEncode (s : String) : List Nat := bytesOfChars s.data

/-- Characters of a byte sequence; `none` when the length is not a
multiple of the code-point width. -/
def charsOfBytes : List Nat → Option (List Char)
  | [] => some []
  | b1 :: b2 :: b3 :: b4 :: rest => do
      let cs ← charsOfBytes rest
      some (Char.ofNat (b1 * 2 ^ 24 + b2 * 2 ^ 16 + b3 * 2 ^ 8 + b4) :: cs)
  | _ => none

/-- Modelled platform primitive: `TextDecoder.decode`. -/
def decoderDecode (bs : List Nat) : Option String :=
  (charsOfBytes bs).map String.mk

/-! ### Length-prefixed framing and the AES-GCM model

WebCrypto `subtle.encrypt` / `subtle.decrypt` with `AES-GCM` are platform
primitives.  They are modelled by their documented contract: an
authenticated encryption in which decryption succeeds exactly when the
key, the IV and the associated data equal those used at encryption, and
then returns the original plaintext; any mismatch (a failed
authentication tag) fails.  The ciphertext is represented concretely as a
length-prefixed framing of the key digits, IV and associated data
followed by the plaintext, so that the whole envelope remains an ordinary
byte sequence (every byte below 256) for the base64 transport layer. -/

/-- Length prefix: `n` as a run of 255-bytes and one closing byte. -/
def lenBytes (n : Nat) : List Nat := List.replicate (n / 255) 255 ++ [n % 255]

/-- Length-prefixed frame of a byte sequence. -/
def lenc (l : List Nat) : List Nat := lenBytes l.length ++ l

/-- Read the body that follows the run of 255-bytes of a length prefix. -/
def ldecTail (q : Nat) : List Nat → Option (List Nat × List Nat)
  | [] => none
  | r :: rest =>
      let n := q * 255 + r
      if n ≤ rest.length then some (rest.take n, rest.drop n) else none

/-- Read one length-prefixed frame, returning the frame and the rest. -/
def ldec (bs : List Nat) : Option (List Nat × List Nat) :=
  ldecTail (bs.takeWhile (· == 255)).length
    (bs.drop (bs.takeWhile (· == 255)).length)

/-- Base-256 digits of the numeric key handle (used only for an equality
check inside the modelled cipher). -/
def natBytes (n : Nat) : List Nat :=
  if h : n = 0 then [] else n % 256 :: natBytes (n / 256)
decreasing_by exact Nat.div_lt_self (Nat.pos_of_ne_zero h) (by omega)

/-- Modelled platform primitive: `subtle.encrypt` with `AES-GCM`
(key, IV, associated data, plaintext → ciphertext bytes). -/
def gcmEncrypt (key : Nat) (iv ad pt : List Nat) : List Nat :=
  lenc (natBytes key) ++ lenc iv ++ lenc ad ++ pt

/-- Modelled platform primitive: `subtle.decrypt` with `AES-GCM`; fails
(the rejected promise of a GCM tag mismatch) unless key, IV and
associated data all match the values used at encryption. -/
def gcmDecrypt (key : Nat) (iv ad ct : List Nat) : Option (List Nat) := do
  let (kb, r1) ← ldec ct
  if kb = natBytes key then
    let (ivb, r2) ← ldec r1
    if ivb = iv then
      let (adb, r3) ← ldec r2
      if adb = ad then some r3 else none
    else none
  else none

/-! ### `CryptoManager` (frontend/js/crypto.js) -/

/-- `CryptoManager.arrayBufferToBase64` (crypto.js, lines 363-371):
builds the binary string from the bytes and applies `btoa`. -/
def arrayBufferToBase64 (buffer : List Nat) : String :=
  String.mk (b64EncodeChunks buffer)

/-- `CryptoManager.base64ToArrayBuffer` (crypto.js, lines 376-384):
applies `atob` and reads the character codes; `none` models the `atob`
exception on malformed base64. -/
def base64ToArrayBuffer (base64 : String) : Option (List Nat) :=
  b64DecodeChunks base64.data

/-- The encrypted envelope returned by `CryptoManager.encryptMessage`. -/
structure EncryptedEnvelope where
  ciphertext : String
  iv : String
  salt : String
  algorithm : String
deriving DecidableEq, Inhabited

/-- `CryptoManager.encryptMessage` (crypto.js, lines 102-139).  The
`isInitialized` flag and the freshly drawn random `iv` (12 bytes) and
`salt` (16 bytes) are explicit arguments; `none` models the thrown
`Failed to encrypt message` error of the uninitialized case. -/
def encryptMessage (isInitialized : Bool) (message : String) (sharedSecret : Nat)
    (conversationId : String) (iv salt : List Nat) : Option EncryptedEnvelope :=
  if !isInitialized then none
  else
    let data := encoderEncode message
    let encrypted := gcmEncrypt sharedSecret iv (encoderEncode conversationId) data
    some { ciphertext := arrayBufferToBase64 encrypted
           iv := arrayBufferToBase64 iv
           salt := arrayBufferToBase64 salt
           algorithm := ("AES-GCM") }

/-- `CryptoManager.decryptMessage` (crypto.js, lines 144-172); `none`
models the thrown `Failed to decrypt message` error (uninitialized,
malformed base64, or GCM authentication failure). -/
def decryptMessage (isInitialized : Bool) (encryptedData : EncryptedEnvelope)
    (sharedSecret : Nat) (conversationId : String) : Option String :=
  if !isInitialized then none
  else do
    let ciphertext ← base64ToArrayBuffer encryptedData.ciphertext
    let iv ← base64ToArrayBuffer encryptedData.iv
    let decrypted ← gcmDecrypt sharedSecret iv (encoderEncode conversationId) ciphertext
    decoderDecode decrypted

/-- An imported RSA public key handle (`CryptoKey`), carrying its SPKI
serialization. -/
structure RSAPublicKey where
  spkiBytes : List Nat
deriving DecidableEq

/-- The `publicKey` argument of `CryptoManager.verifySignature`: either an
already-imported `CryptoKey` handle or a base64 SPKI serialization. -/
inductive PublicKeyInput where
  | handle (k : RSAPublicKey)
  | serialized (s : String)
deriving DecidableEq

/-- Modelled platform primitive: `subtle.importKey` for SPKI public keys;
fails on bytes that are not a well-formed serialization (in the model, a
single length-prefixed frame). -/
def importKeySpki (bs : List Nat) : Option RSAPublicKey :=
  match ldec bs with
  | none => none
  | some (kb, rest) => if rest = [] then some ⟨kb⟩ else none

/-- Modelled platform primitive: `subtle.verify` with RSA-PSS; accepts
exactly the valid signature blob of the data under the key. -/
def rsaPssVerify (key : RSAPublicKey) (sig data : List Nat) : Bool :=
  sig == lenc key.spkiBytes ++ lenc data

/-- `CryptoManager.verifySignature` (crypto.js, lines 266-304).  The
enclosing `try`/`catch` returns `false` on any thrown error, so every
fallible step maps its failure to `false`; the function is total and
Boolean-valued by construction. -/
def verifySignature (data signature : String) (publicKey : PublicKeyInput) : Bool :=
  let dataArray := encoderEncode data
  match base64ToArrayBuffer signature with
  | none => false
  | some signatureArray =>
    match (match publicKey with
           | .handle k => some k
           | .serialized s => (base64ToArrayBuffer s).bind importKeySpki) with
    | none => false
    | some publicKeyObj => rsaPssVerify publicKeyObj signatureArray dataArray

/-- `Utils.constantTimeEquals` (utils, lines 754-763): length check, then
an OR-accumulated XOR over all character codes. -/
def constantTimeEquals (a b : String) : Bool :=
  if a.length ≠ b.length then false
  else
    let result := (List.zip a.data b.data).foldl
      (fun r p => r ||| (p.1.toNat ^^^ p.2.toNat)) 0
    result == 0

/-- JavaScript `String.prototype.toLowerCase`, modelled per character. -/
def jsToLowerCase (s : String) : String := String.mk (s.data.map Char.toLower)

/-! ### Error taxonomy and security constants (backend/types/index.ts) -/

/-- The thrown error classes of the backend (`ValidationError`,
`SecurityError` with its code, `AuthenticationError`). -/
inductive Err where
  | validation (message : String)
  | security (message : String) (code : String)
  | authentication (message : String)
deriving DecidableEq

/-- `SECURITY_CONSTANTS.RATE_LIMIT_WINDOW` (1 minute, ms). -/
def RATE_LIMIT_WINDOW : Nat := 60 * 1000

/-- `SECURITY_CONSTANTS.RATE_LIMIT_MAX_REQUESTS`. -/
def RATE_LIMIT_MAX_REQUESTS : Nat := 100

/-- `SECURITY_CONSTANTS.MAX_LOGIN_ATTEMPTS`. -/
def MAX_LOGIN_ATTEMPTS : Nat := 3

/-- `SECURITY_CONSTANTS.LOCKOUT_BASE_DURATION` (24 hours, ms). -/
def LOCKOUT_BASE_DURATION : Nat := 24 * 60 * 60 * 1000

/-! ### Association-list model of the JavaScript `Map`s -/

/-- `Map.get`. -/
def mapGet? {α : Type} (m : List (String × α)) (k : String) : Option α :=
  match m.find? (fun p => p.1 == k) with
  | some p => some p.2
  | none => none

/-- `Map.set`. -/
def mapSet {α : Type} : List (String × α) → String → α → List (String × α)
  | [], k, v => [(k, v)]
  | p :: rest, k, v => if p.1 = k then (k, v) :: rest else p :: mapSet rest k v

/-! ### `APIRequest` and `parseAndValidateRequest`
(backend/handlers/main.ts) -/

/-- The parsed request record built by `parseAndValidateRequest`.  The
`timestamp` field is `parseInt` of the header: `none` models `NaN`. -/
structure APIRequest where
  method : String
  path : String
  body : Option String
  headers : List (String × String)
  timestamp : Option Nat
  nonce : String
  signature : String
deriving DecidableEq, Inhabited

/-- JavaScript `headers[key]` where an absent key yields `undefined`:
both `undefined` and the empty string are falsy, so the model collapses
them to `""`. -/
def headersGet (hs : List (String × String)) (k : String) : String :=
  match hs.find? (fun p => p.1 == k) with
  | some p => p.2
  | none => ""

/-- The header-key lowercasing loop of `parseAndValidateRequest`. -/
def lowerHeaders (hs : List (String × String)) : List (String × String) :=
  hs.map (fun p => (jsToLowerCase p.1, p.2))

/-- JavaScript `a || b` on strings (empty string is falsy). -/
def jsOr (a b : String) : String := if a = "" then b else a

/-- Decimal value of a digit sequence. -/
def digitsToNat (ds : List Char) : Nat :=
  ds.foldl (fun n c => n * 10 + (c.toNat - 48)) 0

/-- JavaScript `parseInt` restricted to the usages in this code base:
the longest digit prefix, `none` for `NaN`. -/
def jsParseInt (s : String) : Option Nat :=
  let ds := s.data.takeWhile Char.isDigit
  if ds.isEmpty then none else some (digitsToNat ds)

/-- The 5-minute timestamp-skew check of `parseAndValidateRequest`
(main.ts, line 93): `Math.abs(now - timestamp) > 5 * 60 * 1000`.  A `NaN`
timestamp compares false, exactly as in JavaScript. -/
def timestampSkewExceeded (now : Nat) (t? : Option Nat) : Bool :=
  match t? with
  | none => false
  | some t => (if now ≥ t then now - t else t - now) > 5 * 60 * 1000

/-- `parseAndValidateRequest` (main.ts, lines 52-106).  The JSON body is
carried through opaquely (`body`); `now` is `Date.now()` at receipt. -/
def parseAndValidateRequest (method path : String)
    (rawHeaders : List (String × String)) (body : Option String) (now : Nat) :
    Except Err APIRequest :=
  let headers := lowerHeaders rawHeaders
  if headersGet headers ("content-type") = "" then
    Except.error (Err.validation ("Missing Content-Type header"))
  else if headersGet headers ("x-timestamp") = "" then
    Except.error (Err.validation ("Missing timestamp header"))
  else if headersGet headers ("x-nonce") = "" then
    Except.error (Err.validation ("Missing nonce header"))
  else if headersGet headers ("x-signature") = "" then
    Except.error (Err.validation ("Missing signature header"))
  else
    let timestamp := jsParseInt (headersGet headers ("x-timestamp"))
    if timestampSkewExceeded now timestamp then
      Except.error (Err.validation ("Timestamp too old or too far in future"))
    else
      Except.ok { method := method, path := path, body := body, headers := headers,
                  timestamp := timestamp, nonce := headersGet headers ("x-nonce"),
                  signature := headersGet headers ("x-signature") }

/-! ### `SecurityManager` (backend/crypto/security.ts) -/

/-- `SecurityManager.getClientKey` (security.ts, lines 160-166). -/
def getClientKey (request : APIRequest) : String :=
  let ip := jsOr (headersGet request.headers ("x-real-ip"))
    (jsOr (headersGet request.headers ("x-forwarded-for")) ("unknown"))
  let userAgent := jsOr (headersGet request.headers ("user-agent")) ("unknown")
  let fingerprint := jsOr (headersGet request.headers ("x-fingerprint")) ("unknown")
  ip ++ ("|") ++ userAgent ++ ("|") ++ fingerprint

/-- `SecurityManager.validateRateLimit` (security.ts, lines 42-60),
acting on the module-level `rateLimitMap`; the updated map is returned. -/
def validateRateLimit (rateLimitMap : List (String × List Nat))
    (request : APIRequest) (now : Nat) :
    Except Err Unit × List (String × List Nat) :=
  let clientKey := getClientKey request
  let requests := (mapGet? rateLimitMap clientKey).getD []
  let requests := requests.filter (fun timestamp => now - timestamp < RATE_LIMIT_WINDOW)
  if requests.length ≥ RATE_LIMIT_MAX_REQUESTS then
    (Except.error (Err.security ("Rate limit exceeded") ("RATE_LIMIT_EXCEEDED")),
      rateLimitMap)
  else
    (Except.ok (), mapSet rateLimitMap clientKey (requests ++ [now]))

/-- `SecurityManager.buildSignedString` (security.ts, lines 147-155);
`JSON.stringify(request.body || \x7b\x7d)` is the carried body or the
two-character empty-object literal. -/
def buildSignedString (request : APIRequest) : String :=
  String.intercalate ("|")
    [request.method, request.path,
     (match request.timestamp with | some t => toString t | none => ("NaN")),
     request.nonce, (request.body).getD ("\x7b\x7d")]

/-- The character substitution in `isValidSignatureFormat`: every
underscore becomes a slash and every hyphen becomes a plus (the two
global `replace` calls of the source). -/
def urlSafeToStd (c : Char) : Char :=
  if c = '_' then '/' else if c = '-' then '+' else c

/-- `SecurityManager.isValidSignatureFormat` (security.ts, lines
185-193): `atob` must succeed on the substituted string and the
signature must be nonempty. -/
def isValidSignatureFormat (signature : String) : Bool :=
  match b64DecodeChunks (signature.data.map urlSafeToStd) with
  | some _ => signature.length > 0
  | none => false

/-- `SecurityManager.validateSignature` (security.ts, lines 65-88).  The
HMAC verification itself is left as a TODO in the source: only presence
and base64 format of the signature are checked.  The signed string is
built and discarded exactly as in the source. -/
def validateSignature (request : APIRequest) : Except Err Unit :=
  let signature := headersGet request.headers ("x-signature")
  if signature = "" then
    Except.error (Err.security ("Missing signature") ("MISSING_SIGNATURE"))
  else
    let _ := buildSignedString request
    if !(isValidSignatureFormat signature) then
      Except.error (Err.security ("Invalid signature format") ("INVALID_SIGNATURE"))
    else Except.ok ()

/-- The `LoginAttempt` records of `SecurityManager` (security.ts, lines
264-270), with `timestamp` as epoch milliseconds. -/
structure LoginAttempt where
  username : String
  timestamp : Nat
  ip : String
  fingerprint : String
  success : Bool
deriving DecidableEq, Inhabited

/-- `SecurityManager.validateBruteForce` (security.ts, lines 93-120),
reading the module-level `loginAttempts` map (never writing it). -/
def validateBruteForce (loginAttempts : List (String × List LoginAttempt))
    (request : APIRequest) (now : Nat) : Except Err Unit :=
  if request.path ≠ ("/api/auth/login") then Except.ok ()
  else
    let clientKey := getClientKey request
    let attempts := (mapGet? loginAttempts clientKey).getD []
    let attempts := attempts.filter
      (fun attempt => now - attempt.timestamp < 24 * 60 * 60 * 1000)
    let failedAttempts := attempts.filter (fun attempt => !attempt.success)
    if failedAttempts.length ≥ MAX_LOGIN_ATTEMPTS then
      let lastFailed := failedAttempts.getD (failedAttempts.length - 1) default
      let lockoutDuration := 3 ^ (failedAttempts.length - 3) * LOCKOUT_BASE_DURATION
      let lockoutUntil := lastFailed.timestamp + lockoutDuration
      if now < lockoutUntil then
        Except.error (Err.authentication
          ("Account temporarily locked due to too many failed login attempts"))
      else Except.ok ()
    else Except.ok ()

/-- `SecurityManager.isValidSessionToken` (security.ts, lines 198-202):
the case-insensitive UUID shape check of the regular expression. -/
def uuidCharOk (i : Nat) (c : Char) : Bool :=
  if i = 8 ∨ i = 13 ∨ i = 18 ∨ i = 23 then c = '-'
  else if i = 14 then ('1' ≤ c ∧ c ≤ '5')
  else if i = 19 then
    (c = '8' ∨ c = '9' ∨ c = 'a' ∨ c = 'b' ∨ c = 'A' ∨ c = 'B')
  else (c.isDigit ∨ ('a' ≤ c ∧ c ≤ 'f') ∨ ('A' ≤ c ∧ c ≤ 'F'))

/-- `SecurityManager.isValidSessionToken`: length 36 and per-position
character classes. -/
def isValidSessionToken (token : String) : Bool :=
  token.length == 36 &&
    (List.range 36).all (fun i => uuidCharOk i (token.data.getD i ('x')))

/-- `SecurityManager.validateSession` (security.ts, lines 125-142): the
session lookup is a TODO in the source; only presence and format of the
token are checked. -/
def validateSession (request : APIRequest) : Except Err Unit :=
  let sessionToken := headersGet request.headers ("x-session-token")
  if sessionToken = "" then
    Except.error (Err.authentication ("Missing session token"))
  else if !(isValidSessionToken sessionToken) then
    Except.error (Err.authentication ("Invalid session token format"))
  else Except.ok ()

/-- `SecurityManager.requiresAuthentication` (security.ts, lines
171-180). -/
def requiresAuthentication (path : String) : Bool :=
  !([("/api/auth/register"), ("/api/auth/login"), ("/api/auth/captcha"),
     ("/api/health")].contains path)

/-- The mutable module-level state of `SecurityManager`. -/
structure ServerState where
  rateLimitMap : List (String × List Nat)
  loginAttempts : List (String × List LoginAttempt)
deriving DecidableEq, Inhabited

/-- `SecurityManager.validateRequest` (security.ts, lines 23-37): rate
limit, then signature, then brute force, then (for authenticated
endpoints) session. -/
def validateRequest (request : APIRequest) (st : ServerState) (now : Nat) :
    Except Err Unit × ServerState :=
  match validateRateLimit st.rateLimitMap request now with
  | (Except.error e, m) => (Except.error e, { st with rateLimitMap := m })
  | (Except.ok _, m) =>
    let st' : ServerState := { st with rateLimitMap := m }
    match validateSignature request with
    | Except.error e => (Except.error e, st')
    | Except.ok _ =>
      match validateBruteForce st'.loginAttempts request now with
      | Except.error e => (Except.error e, st')
      | Except.ok _ =>
        if requiresAuthentication request.path then
          match validateSession request with
          | Except.error e => (Except.error e, st')
          | Except.ok _ => (Except.ok (), st')
        else (Except.ok (), st')

/-- The validation part of `handleRequest` (main.ts, lines 20-47):
`parseAndValidateRequest` followed by `SecurityManager.validateRequest`;
any thrown error becomes the error response. -/
def handleRequestValidation (method path : String)
    (rawHeaders : List (String × String)) (body : Option String) (now : Nat)
    (st : ServerState) : Except Err APIRequest × ServerState :=
  match parseAndValidateRequest method path rawHeaders body now with
  | Except.error e => (Except.error e, st)
  | Except.ok apiRequest =>
    match validateRequest apiRequest st now with
    | (Except.error e, st') => (Except.error e, st')
    | (Except.ok _, st') => (Except.ok apiRequest, st')

/-! ### `AuthManager` CAPTCHA validation -/

/-- One entry of the `captchaTokens` map (stored by
`AuthManager.getCaptcha`). -/
structure CaptchaData where
  challenge : String
  solution : String
  createdAt : Nat
  used : Bool
deriving DecidableEq, Inhabited

/-- The `captchaTokens` map. -/
def CaptchaState : Type := List (String × CaptchaData)

/-- `AuthManager.validateCaptcha`: absent, used or expired (older than 5
minutes) tokens fail; otherwise the answer is compared constant-time,
case-insensitively, and a success marks the token used. -/
def validateCaptcha (st : CaptchaState) (now : Nat) (userInput token : String) :
    Bool × CaptchaState :=
  match mapGet? st token with
  | none => (false, st)
  | some captchaData =>
    if captchaData.used || decide (now - captchaData.createdAt > 5 * 60 * 1000) then
      (false, st)
    else
      let isValid := constantTimeEquals (jsToLowerCase userInput)
        (jsToLowerCase captchaData.solution)
      if isValid then (true, mapSet st token { captchaData with used := true })
      else (false, st)

/-- A token whose entry is present and marked used. -/
def tokenUsed (st : CaptchaState) (token : String) : Prop :=
  ∃ captchaData, mapGet? st token = some captchaData ∧ captchaData.used = true

/-- Any further sequence of `validateCaptcha` calls, folded over the
state. -/
def runCaptchaCalls (st : CaptchaState) : List (Nat × String × String) → CaptchaState
  | [] => st
  | c :: cs => runCaptchaCalls (validateCaptcha st c.1 c.2.1 c.2.2).2 cs

/-- Whether a pipeline outcome accepted the request. -/
def exceptAccepted {α : Type} : Except Err α → Bool
  | Except.ok _ => true
  | Except.error _ => false

/-- Whether a pipeline outcome is a `SecurityError` with the given code. -/
def errIsSecurityCode {α : Type} : Except Err α → String → Bool
  | Except.error (Err.security _ code), c => code == c
  | _, _ => false

/-- Concrete CAPTCHA store for the C7 witness: one fresh token. -/
def captchaStateW : CaptchaState :=
  [(("t1"), ⟨("ch"), ("AbC"), 0, false⟩)]

/-- The requests of a client that fall inside the sliding rate-limit
window at time `now` (the filtered list of `validateRateLimit`). -/
def activeRequests (m : List (String × List Nat)) (ck : String) (now : Nat) :
    List Nat :=
  ((mapGet? m ck).getD []).filter (fun timestamp => now - timestamp < RATE_LIMIT_WINDOW)

/-- The in-window failed login attempts of a client at time `now` (the
filtered lists of `validateBruteForce`). -/
def activeFailed (la : List (String × List LoginAttempt)) (ck : String) (now : Nat) :
    List LoginAttempt :=
  (((mapGet? la ck).getD []).filter
      (fun attempt => now - attempt.timestamp < 24 * 60 * 60 * 1000)).filter
    (fun attempt => !attempt.success)

/-- The lockout expiry computed by `validateBruteForce`: timestamp of the
last in-window failure plus base duration times 3 to the power of the
failures beyond the threshold. -/
def lockoutExpiry (la : List (String × List LoginAttempt)) (ck : String) (now : Nat) :
    Nat :=
  ((activeFailed la ck now).getD ((activeFailed la ck now).length - 1) default).timestamp +
    3 ^ ((activeFailed la ck now).length - 3) * LOCKOUT_BASE_DURATION

/-- Headers of a well-formed request carrying the fixed nonce `n0`, used
to exercise the validation pipeline twice. -/
def replayHeadersW : List (String × String) :=
  [(("Content-Type"), ("application/json")), (("X-Timestamp"), ("1000000")),
   (("X-Nonce"), ("n0")), (("X-Signature"), ("QUJD"))]

/-- The same headers with the signature header removed. -/
def noSignatureHeadersW : List (String × String) :=
  [(("Content-Type"), ("application/json")), (("X-Timestamp"), ("1000000")),
   (("X-Nonce"), ("n0"))]

/-- A concrete parsed request from an anonymous client. -/
def requestW : APIRequest :=
  { method := ("GET"), path := ("/api/health"), body := none, headers := [],
    timestamp := some 5, nonce := ("n"), signature := ("QUJD") }

/-- A concrete parsed login request from an anonymous client. -/
def requestLoginW : APIRequest :=
  { method := ("POST"), path := ("/api/auth/login"), body := none, headers := [],
    timestamp := some 5, nonce := ("n"), signature := ("QUJD") }

/-- A rate-limit map holding 100 in-window requests for the client of
`requestW`. -/
def fullRateMapW : List (String × List Nat) :=
  [(("unknown|unknown|unknown"), List.replicate 100 5)]

/-- A failed login attempt at the given time. -/
def attemptW (t : Nat) : LoginAttempt := ⟨("u"), t, ("ip"), ("fp"), false⟩

/-- Three failed login attempts at time 0 for the client of
`requestLoginW`. -/
def loginAttemptsW : List (String × List LoginAttempt) :=
  [(("unknown|unknown|unknown"), [attemptW 0, attemptW 0, attemptW 0])]

theorem b64Val_b64Char_fin : ∀ v : Fin 64, b64Val (b64Char v.val) = some v.val := by
  decide

theorem b64Val_b64Char {n : Nat} (h : n < 64) : b64Val (b64Char n) = some n :=
  b64Val_b64Char_fin ⟨n, h⟩

theorem b64Char_ne_pad_fin : ∀ v : Fin 64, ¬ b64Char v.val = '=' := by
  decide

theorem b64Char_ne_pad {n : Nat} (h : n < 64) : ¬ b64Char n = '=' :=
  b64Char_ne_pad_fin ⟨n, h⟩

/-- Round trip of the base64 codec on byte sequences. -/
theorem b64_decode_encode (bs : List Nat) (hb : ∀ b ∈ bs, b < 256) :
    b64DecodeChunks (b64EncodeChunks bs) = some bs := by
  induction bs using b64EncodeChunks.induct with
  | case1 =>
      simp [b64EncodeChunks, b64DecodeChunks]
  | case2 b1 =>
      have h1 : b1 < 256 := hb b1 (by simp)
      rw [b64EncodeChunks, b64DecodeChunks]
      rw [if_pos (by simp)]
      rw [b64Val_b64Char (by omega), b64Val_b64Char (by omega)]
      simp only [Option.bind_eq_bind, Option.some_bind, Option.some.injEq,
        List.cons.injEq, and_true]
      omega
  | case3 b1 b2 =>
      have h1 : b1 < 256 := hb b1 (by simp)
      have h2 : b2 < 256 := hb b2 (by simp)
      rw [b64EncodeChunks, b64DecodeChunks]
      rw [if_neg (by
        rintro ⟨-, h, -⟩
        exact b64Char_ne_pad (by omega) h)]
      rw [if_pos (by simp)]
      rw [b64Val_b64Char (by omega), b64Val_b64Char (by omega),
        b64Val_b64Char (by omega)]
      simp only [Option.bind_eq_bind, Option.some_bind, Option.some.injEq,
        List.cons.injEq, and_true]
      omega
  | case4 b1 b2 b3 rest ih =>
      have h1 : b1 < 256 := hb b1 (by simp)
      have h2 : b2 < 256 := hb b2 (by simp)
      have h3 : b3 < 256 := hb b3 (by simp)
      have hrest : ∀ b ∈ rest, b < 256 := fun b h => hb b (by simp [h])
      rw [b64EncodeChunks, b64DecodeChunks]
      rw [if_neg (by
        rintro ⟨-, h, -⟩
        exact b64Char_ne_pad (by omega) h)]
      rw [if_neg (by
        rintro ⟨-, h⟩
        exact b64Char_ne_pad (by omega) h)]
      rw [b64Val_b64Char (by omega), b64Val_b64Char (by omega),
        b64Val_b64Char (by omega), b64Val_b64Char (by omega)]
      rw [ih hrest]
      simp only [Option.bind_eq_bind, Option.some_bind, Option.some.injEq,
        List.cons.injEq, and_true]
      refine ⟨by omega, by omega, by omega⟩

theorem charsOfBytes_bytesOfChars (cs : List Char) :
    charsOfBytes (bytesOfChars cs) = some cs := by
  induction cs with
  | nil => simp [bytesOfChars, charsOfBytes]
  | cons c cs ih =>
      have hval : c.toNat < 2 ^ 32 := c.val.toNat_lt
      rw [bytesOfChars, charBytes]
      show charsOfBytes (_ :: _ :: _ :: _ :: bytesOfChars cs) = _
      rw [charsOfBytes, ih]
      have hn : c.toNat / 2 ^ 24 % 256 * 2 ^ 24 + c.toNat / 2 ^ 16 % 256 * 2 ^ 16 +
          c.toNat / 2 ^ 8 % 256 * 2 ^ 8 + c.toNat % 256 = c.toNat := by
        omega
      simp only [Option.bind_eq_bind, Option.some_bind, hn, Char.ofNat_toNat]

theorem decoderDecode_encoderEncode (s : String) :
    decoderDecode (encoderEncode s) = some s := by
  rw [encoderEncode, decoderDecode, charsOfBytes_bytesOfChars]
  rfl

theorem encoderEncode_injective {s t : String} (h : encoderEncode s = encoderEncode t) :
    s = t := by
  have hs := decoderDecode_encoderEncode s
  have ht := decoderDecode_encoderEncode t
  rw [h, ht] at hs
  exact (Option.some_inj.mp hs).symm

theorem bytesOfChars_lt (cs : List Char) : ∀ b ∈ bytesOfChars cs, b < 256 := by
  induction cs with
  | nil => simp [bytesOfChars]
  | cons c cs ih =>
      intro b hb
      rw [bytesOfChars] at hb
      rcases List.mem_append.mp hb with h | h
      · rw [charBytes] at h
        simp only [List.mem_cons, List.not_mem_nil, or_false] at h
        rcases h with h | h | h | h <;> omega
      · exact ih b h

theorem takeWhile_replicate_cons {α : Type} [BEq α] [LawfulBEq α] (a r : α) (q : Nat)
    (tail : List α) (hr : (r == a) = false) :
    (List.replicate q a ++ r :: tail).takeWhile (· == a) = List.replicate q a := by
  induction q with
  | zero => simp [List.takeWhile, hr]
  | succ q ih =>
      rw [List.replicate_succ, List.cons_append, List.takeWhile_cons]
      simp [ih]

theorem ldec_lenc (l rest : List Nat) : ldec (lenc l ++ rest) = some (l, rest) := by
  have hr : ((l.length % 255 : Nat) == 255) = false := by
    simp only [beq_eq_false_iff_ne, ne_eq]
    omega
  rw [lenc, lenBytes, ldec]
  simp only [List.append_assoc, List.cons_append, List.nil_append]
  rw [takeWhile_replicate_cons _ _ _ _ hr]
  simp only [List.length_replicate]
  rw [List.drop_left' (List.length_replicate _ _)]
  rw [ldecTail]
  have hn : l.length / 255 * 255 + l.length % 255 = l.length := by omega
  simp only [hn]
  rw [if_pos (by simp)]
  rw [List.take_left, List.drop_left]

theorem lenBytes_lt (n : Nat) : ∀ b ∈ lenBytes n, b < 256 := by
  intro b hb
  rw [lenBytes] at hb
  rcases List.mem_append.mp hb with h | h
  · have := List.eq_of_mem_replicate h
    omega
  · simp only [List.mem_singleton] at h
    omega

theorem lenc_lt (l : List Nat) (hl : ∀ b ∈ l, b < 256) : ∀ b ∈ lenc l, b < 256 := by
  intro b hb
  rcases List.mem_append.mp hb with h | h
  · exact lenBytes_lt _ b h
  · exact hl b h

theorem natBytes_lt (n : Nat) : ∀ b ∈ natBytes n, b < 256 := by
  induction n using natBytes.induct with
  | case1 => simp [natBytes]
  | case2 n hn ih =>
      intro b hb
      rw [natBytes, dif_neg hn] at hb
      rcases List.mem_cons.mp hb with h | h
      · omega
      · exact ih b h

theorem gcmDecrypt_gcmEncrypt (key : Nat) (iv ad pt : List Nat) :
    gcmDecrypt key iv ad (gcmEncrypt key iv ad pt) = some pt := by
  simp only [gcmEncrypt, gcmDecrypt, List.append_assoc, Option.bind_eq_bind,
    ldec_lenc, Option.some_bind, if_pos rfl]
  simp

theorem gcmDecrypt_wrong_ad (key : Nat) (iv ad ad' pt : List Nat) (h : ad' ≠ ad) :
    gcmDecrypt key iv ad' (gcmEncrypt key iv ad pt) = none := by
  simp only [gcmEncrypt, gcmDecrypt, List.append_assoc, Option.bind_eq_bind,
    ldec_lenc, Option.some_bind, if_pos rfl]
  rw [if_neg (Ne.symm h)]
  simp

theorem gcmEncrypt_lt (key : Nat) (iv ad pt : List Nat)
    (hiv : ∀ b ∈ iv, b < 256) (had : ∀ b ∈ ad, b < 256) (hpt : ∀ b ∈ pt, b < 256) :
    ∀ b ∈ gcmEncrypt key iv ad pt, b < 256 := by
  intro b hb
  rw [gcmEncrypt] at hb
  rcases List.mem_append.mp hb with h | h
  · rcases List.mem_append.mp h with h | h
    · rcases List.mem_append.mp h with h | h
      · exact lenc_lt _ (natBytes_lt key) b h
      · exact lenc_lt _ hiv b h
    · exact lenc_lt _ had b h
  · exact hpt b h

theorem mapGet?_mapSet_self {α : Type} (m : List (String × α)) (k : String) (v : α) :
    mapGet? (mapSet m k v) k = some v := by
  induction m with
  | nil => simp [mapSet, mapGet?, List.find?]
  | cons p rest ih =>
      rw [mapSet]
      by_cases h : p.1 = k
      · simp [mapGet?, List.find?, h]
      · rw [if_neg h]
        simp only [mapGet?, List.find?]
        have : (p.1 == k) = false := by simp [h]
        rw [this]
        exact ih

theorem mapGet?_mapSet_ne {α : Type} (m : List (String × α)) (k k' : String) (v : α)
    (h : k ≠ k') : mapGet? (mapSet m k v) k' = mapGet? m k' := by
  have hk : (k == k') = false := by simp [h]
  induction m with
  | nil => simp [mapSet, mapGet?, List.find?, hk]
  | cons p rest ih =>
      rw [mapSet]
      by_cases hp : p.1 = k
      · simp only [if_pos hp, mapGet?, List.find?]
        have h1 : (k == k') = false := by simp [h]
        have h2 : (p.1 == k') = false := by simp [hp, h]
        rw [h1, h2]
      · rw [if_neg hp]
        simp only [mapGet?, List.find?]
        cases hc : (p.1 == k') with
        | true => rfl
        | false => exact ih

theorem validateCaptcha_true_marks_used (st : CaptchaState) (now : Nat)
    (userInput token : String)
    (h : (validateCaptcha st now userInput token).1 = true) :
    tokenUsed (validateCaptcha st now userInput token).2 token := by
  rw [validateCaptcha] at *
  cases hget : mapGet? st token with
  | none => rw [hget] at h; simp at h
  | some captchaData =>
      rw [hget] at h
      dsimp only at h ⊢
      by_cases hused : (captchaData.used ||
          decide (now - captchaData.createdAt > 5 * 60 * 1000)) = true
      · rw [if_pos hused] at h; simp at h
      · rw [if_neg hused] at h ⊢
        by_cases hv : constantTimeEquals (jsToLowerCase userInput)
            (jsToLowerCase captchaData.solution) = true
        · simp only [hv, if_true]
          exact ⟨_, mapGet?_mapSet_self st token _, rfl⟩
        · simp only [eq_false_of_ne_true hv, if_false] at h
          simp at h

theorem validateCaptcha_preserves_used (st : CaptchaState) (now : Nat)
    (userInput token' token : String) (h : tokenUsed st token) :
    tokenUsed (validateCaptcha st now userInput token').2 token := by
  obtain ⟨cd, hget, hused⟩ := h
  rw [validateCaptcha]
  cases hget' : mapGet? st token' with
  | none => exact ⟨cd, hget, hused⟩
  | some cd' =>
      dsimp only
      by_cases hc : (cd'.used || decide (now - cd'.createdAt > 5 * 60 * 1000)) = true
      · rw [if_pos hc]; exact ⟨cd, hget, hused⟩
      · rw [if_neg hc]
        by_cases hv : constantTimeEquals (jsToLowerCase userInput)
            (jsToLowerCase cd'.solution) = true
        · simp only [hv, if_true]
          by_cases he : token' = token
          · subst he
            rw [hget'] at hget
            cases hget
            simp only [Bool.or_eq_true, decide_eq_true_eq] at hc
            exact absurd hused (by tauto)
          · exact ⟨cd, by rw [mapGet?_mapSet_ne _ _ _ _ he]; exact hget, hused⟩
        · simp only [eq_false_of_ne_true hv, if_false]
          exact ⟨cd, hget, hused⟩

theorem runCaptchaCalls_preserves_used (calls : List (Nat × String × String))
    (st : CaptchaState) (token : String) (h : tokenUsed st token) :
    tokenUsed (runCaptchaCalls st calls) token := by
  induction calls generalizing st with
  | nil => exact h
  | cons c cs ih =>
      rw [runCaptchaCalls]
      exact ih _ (validateCaptcha_preserves_used st c.1 c.2.1 c.2.2 token h)

theorem validateCaptcha_used_false (st : CaptchaState) (now : Nat)
    (userInput token : String) (h : tokenUsed st token) :
    (validateCaptcha st now userInput token).1 = false := by
  obtain ⟨cd, hget, hused⟩ := h
  rw [validateCaptcha, hget]
  dsimp only
  rw [if_pos (by simp [hused])]

/-! ### Helper lemmas shared by the claims -/

theorem base64_roundtrip (bs : List Nat) (hb : ∀ b ∈ bs, b < 256) :
    base64ToArrayBuffer (arrayBufferToBase64 bs) = some bs := by
  rw [arrayBufferToBase64, base64ToArrayBuffer]
  show b64DecodeChunks (b64EncodeChunks bs) = some bs
  exact b64_decode_encode bs hb

/-! ### The claims -/

/-- C9: for every byte sequence (each byte below 256, as in a
`Uint8Array`), including the empty sequence,
`base64ToArrayBuffer (arrayBufferToBase64 bytes)` returns exactly the
original bytes. -/
theorem C9_base64_roundtrips_exactly (bytes : List Nat)
    (h : ∀ b ∈ bytes, b < 256) :
    base64ToArrayBuffer (arrayBufferToBase64 bytes) = some bytes :=
  base64_roundtrip bytes h

theorem C9_witness :
    (∀ b ∈ ([0, 255, 17] : List Nat), b < 256) ∧
    base64ToArrayBuffer (arrayBufferToBase64 [0, 255, 17]) = some [0, 255, 17] :=
  ⟨by decide, C9_base64_roundtrips_exactly [0, 255, 17] (by decide)⟩

/-- C1: for every plaintext string, AES-GCM key and context identifier,
decrypting the envelope produced by `encryptMessage` with
`decryptMessage` under the same key and context returns exactly the
plaintext (for an initialized manager and a 12-byte random IV, whose
bytes are below 256 as drawn from `Uint8Array`). -/
theorem C1_encrypt_then_decrypt_returns_plaintext (message conversationId : String)
    (sharedSecret : Nat) (iv salt : List Nat) (hiv : ∀ b ∈ iv, b < 256)
    (env : EncryptedEnvelope)
    (henc : encryptMessage true message sharedSecret conversationId iv salt = some env) :
    decryptMessage true env sharedSecret conversationId = some message := by
  have hred : encryptMessage true message sharedSecret conversationId iv salt =
      some { ciphertext := arrayBufferToBase64 (gcmEncrypt sharedSecret iv
               (encoderEncode conversationId) (encoderEncode message))
             iv := arrayBufferToBase64 iv
             salt := arrayBufferToBase64 salt
             algorithm := ("AES-GCM") } := rfl
  rw [hred] at henc
  have henv := (Option.some_inj.mp henc).symm
  subst henv
  have h1 : base64ToArrayBuffer (arrayBufferToBase64 (gcmEncrypt sharedSecret iv
      (encoderEncode conversationId) (encoderEncode message))) =
      some (gcmEncrypt sharedSecret iv (encoderEncode conversationId)
        (encoderEncode message)) :=
    base64_roundtrip _ (gcmEncrypt_lt _ _ _ _ hiv (bytesOfChars_lt _) (bytesOfChars_lt _))
  have h2 : base64ToArrayBuffer (arrayBufferToBase64 iv) = some iv :=
    base64_roundtrip iv hiv
  simp only [decryptMessage, Bool.not_true, Bool.false_eq_true, if_false, h1, h2,
    Option.bind_eq_bind, Option.some_bind, gcmDecrypt_gcmEncrypt,
    decoderDecode_encoderEncode]

theorem C1_witness :
    (∀ b ∈ ([1, 2, 3] : List Nat), b < 256) ∧
    (match encryptMessage true ("hi") 7 ("conv") [1, 2, 3] [9] with
     | some env => decryptMessage true env 7 ("conv") = some ("hi")
     | none => False) := by
  refine ⟨by decide, ?_⟩
  exact C1_encrypt_then_decrypt_returns_plaintext ("hi") ("conv") 7 [1, 2, 3] [9]
    (by decide) _ rfl

/-- C2: decrypting an envelope under a context identifier different from
the one used at encryption fails (`none`, the thrown decryption error):
the associated data binds the context, so no partial or garbage
plaintext is ever returned. -/
theorem C2_decrypt_with_wrong_context_fails (message conv1 conv2 : String)
    (sharedSecret : Nat) (iv salt : List Nat) (hne : conv1 ≠ conv2)
    (hiv : ∀ b ∈ iv, b < 256) (env : EncryptedEnvelope)
    (henc : encryptMessage true message sharedSecret conv1 iv salt = some env) :
    decryptMessage true env sharedSecret conv2 = none := by
  have hred : encryptMessage true message sharedSecret conv1 iv salt =
      some { ciphertext := arrayBufferToBase64 (gcmEncrypt sharedSecret iv
               (encoderEncode conv1) (encoderEncode message))
             iv := arrayBufferToBase64 iv
             salt := arrayBufferToBase64 salt
             algorithm := ("AES-GCM") } := rfl
  rw [hred] at henc
  have henv := (Option.some_inj.mp henc).symm
  subst henv
  have h1 : base64ToArrayBuffer (arrayBufferToBase64 (gcmEncrypt sharedSecret iv
      (encoderEncode conv1) (encoderEncode message))) =
      some (gcmEncrypt sharedSecret iv (encoderEncode conv1) (encoderEncode message)) :=
    base64_roundtrip _ (gcmEncrypt_lt _ _ _ _ hiv (bytesOfChars_lt _) (bytesOfChars_lt _))
  have h2 : base64ToArrayBuffer (arrayBufferToBase64 iv) = some iv :=
    base64_roundtrip iv hiv
  have had : encoderEncode conv2 ≠ encoderEncode conv1 :=
    fun h => hne (encoderEncode_injective h).symm
  simp only [decryptMessage, Bool.not_true, Bool.false_eq_true, if_false, h1, h2,
    Option.bind_eq_bind, Option.some_bind,
    gcmDecrypt_wrong_ad sharedSecret iv (encoderEncode conv1) (encoderEncode conv2)
      (encoderEncode message) had, Option.none_bind]

theorem C2_witness :
    ("a" : String) ≠ ("b") ∧
    (match encryptMessage true ("hi") 7 ("a") [1, 2, 3] [9] with
     | some env => decryptMessage true env 7 ("b") = none
     | none => False) := by
  refine ⟨by decide, ?_⟩
  exact C2_decrypt_with_wrong_context_fails ("hi") ("a") ("b") 7 [1, 2, 3] [9]
    (by decide) (by decide) _ rfl

/-- C8: `verifySignature` is a total Boolean-valued function (the
`try`/`catch` maps every thrown error to `false`), and on malformed
input — a signature that is not valid base64, or a serialized public key
whose base64 decoding or SPKI import fails — it returns `false`. -/
theorem C8_verify_false_on_malformed_input (data signatureB64 : String)
    (publicKey : PublicKeyInput) :
    (base64ToArrayBuffer signatureB64 = none →
      verifySignature data signatureB64 publicKey = false) ∧
    (∀ s, publicKey = PublicKeyInput.serialized s →
      (base64ToArrayBuffer s).bind importKeySpki = none →
      verifySignature data signatureB64 publicKey = false) := by
  constructor
  · intro h
    simp only [verifySignature, h]
  · intro s hpk h
    subst hpk
    simp only [verifySignature, h]
    cases hsig : base64ToArrayBuffer signatureB64 with
    | none => rfl
    | some sigBytes => rfl

theorem C8_witness :
    (base64ToArrayBuffer ("!") = none ∧
      verifySignature ("d") ("!") (PublicKeyInput.handle ⟨[1]⟩) = false) ∧
    ((base64ToArrayBuffer ("!")).bind importKeySpki = none ∧
      verifySignature ("d") ("QQ==") (PublicKeyInput.serialized ("!")) = false) :=
  ⟨⟨by decide,
    (C8_verify_false_on_malformed_input ("d") ("!")
      (PublicKeyInput.handle ⟨[1]⟩)).1 (by decide)⟩,
   ⟨by decide,
    (C8_verify_false_on_malformed_input ("d") ("QQ==")
      (PublicKeyInput.serialized ("!"))).2 ("!") rfl (by decide)⟩⟩

/-- C7: once `validateCaptcha` has returned `true` for a token, every
subsequent call for that token — after any further sequence of
`validateCaptcha` calls, at any time, with any submitted answer,
correct or not — returns `false`: the successful validation marks the
token used, no call ever unmarks it, and used tokens always fail. -/
theorem C7_captcha_token_is_single_use (st : CaptchaState) (now : Nat)
    (userInput token : String)
    (h : (validateCaptcha st now userInput token).1 = true)
    (calls : List (Nat × String × String)) (now2 : Nat) (userInput2 : String) :
    (validateCaptcha (runCaptchaCalls (validateCaptcha st now userInput token).2 calls)
      now2 userInput2 token).1 = false :=
  validateCaptcha_used_false _ _ _ _
    (runCaptchaCalls_preserves_used calls _ token
      (validateCaptcha_true_marks_used st now userInput token h))

theorem C7_witness :
    (validateCaptcha captchaStateW 1000 ("abc") ("t1")).1 = true ∧
    (validateCaptcha (runCaptchaCalls (validateCaptcha captchaStateW 1000 ("abc") ("t1")).2
        [(2000, ("abc"), ("t1"))]) 3000 ("abc") ("t1")).1 = false :=
  ⟨by decide,
   C7_captcha_token_is_single_use captchaStateW 1000 ("abc") ("t1") (by decide)
     [(2000, ("abc"), ("t1"))] 3000 ("abc")⟩

theorem filter_length_partition {α : Type} (l : List α) (p : α → Bool) :
    (l.filter p).length + (l.filter (fun a => !(p a))).length = l.length := by
  induction l with
  | nil => simp
  | cons a l ih =>
      by_cases h : p a = true <;>
        simp only [List.filter, h, Bool.not_true, Bool.not_false, List.length_cons] <;>
        omega

/-- C3: the claim requires a nonce never to validate twice within the
replay window; the code keeps no record of nonces (only the presence of
the `X-Nonce` header is checked), so the identical request — same nonce
`n0`, same timestamp — passes the full validation pipeline twice.  This
theorem evaluates the code at that failing input. -/
theorem C3_same_nonce_validates_twice :
    exceptAccepted (handleRequestValidation ("GET") ("/api/health") replayHeadersW none
        1000000 ⟨[], []⟩).1 = true ∧
    exceptAccepted (handleRequestValidation ("GET") ("/api/health") replayHeadersW none
        1000000
        (handleRequestValidation ("GET") ("/api/health") replayHeadersW none 1000000
          ⟨[], []⟩).2).1 = true := by
  decide

/-- C4 counterexample: a request with no signature header is rejected by
the pipeline with `ValidationError('Missing signature header')` from
`parseAndValidateRequest`, not with `SecurityError(MISSING_SIGNATURE)`
as the claim states. -/
theorem C4_counterexample_missing_signature_is_validation_error :
    (handleRequestValidation ("GET") ("/api/health") noSignatureHeadersW none 1000000
        ⟨[], []⟩).1 =
      Except.error (Err.validation ("Missing signature header")) ∧
    errIsSecurityCode (handleRequestValidation ("GET") ("/api/health") noSignatureHeadersW
        none 1000000 ⟨[], []⟩).1 ("MISSING_SIGNATURE") = false := by
  constructor
  · rfl
  · rfl

/-- C4 (amended): a request with no signature header fails validation,
but with `ValidationError` from `parseAndValidateRequest` (which runs
first and leaves the state unchanged); `SecurityManager.validateSignature`
alone throws `SecurityError(MISSING_SIGNATURE)` when given a request
without a signature; and a request whose numeric timestamp differs from
receipt time by more than 5 minutes fails with `ValidationError`. -/
theorem C4_amended_missing_signature_and_timestamp_skew :
    (∀ (method path : String) (rawHeaders : List (String × String))
        (body : Option String) (now : Nat) (st : ServerState),
      headersGet (lowerHeaders rawHeaders) ("content-type") ≠ "" →
      headersGet (lowerHeaders rawHeaders) ("x-timestamp") ≠ "" →
      headersGet (lowerHeaders rawHeaders) ("x-nonce") ≠ "" →
      headersGet (lowerHeaders rawHeaders) ("x-signature") = "" →
      handleRequestValidation method path rawHeaders body now st =
        (Except.error (Err.validation ("Missing signature header")), st)) ∧
    (∀ request : APIRequest, headersGet request.headers ("x-signature") = "" →
      validateSignature request =
        Except.error (Err.security ("Missing signature") ("MISSING_SIGNATURE"))) ∧
    (∀ (method path : String) (rawHeaders : List (String × String))
        (body : Option String) (now : Nat) (st : ServerState) (t : Nat),
      headersGet (lowerHeaders rawHeaders) ("content-type") ≠ "" →
      headersGet (lowerHeaders rawHeaders) ("x-nonce") ≠ "" →
      headersGet (lowerHeaders rawHeaders) ("x-signature") ≠ "" →
      jsParseInt (headersGet (lowerHeaders rawHeaders) ("x-timestamp")) = some t →
      (if now ≥ t then now - t else t - now) > 5 * 60 * 1000 →
      handleRequestValidation method path rawHeaders body now st =
        (Except.error (Err.validation ("Timestamp too old or too far in future")), st)) := by
  refine ⟨?_, ?_, ?_⟩
  · intro method path rawHeaders body now st h1 h2 h3 h4
    have hp : parseAndValidateRequest method path rawHeaders body now =
        Except.error (Err.validation ("Missing signature header")) := by
      simp only [parseAndValidateRequest, if_neg h1, if_neg h2, if_neg h3, if_pos h4]
    simp only [handleRequestValidation, hp]
  · intro request h
    simp only [validateSignature, if_pos h]
  · intro method path rawHeaders body now st t h1 h3 h4 hjs habs
    have h2 : headersGet (lowerHeaders rawHeaders) ("x-timestamp") ≠ "" := by
      intro he
      rw [he] at hjs
      have hnone : jsParseInt ("") = none := rfl
      rw [hnone] at hjs
      exact Option.noConfusion hjs
    have hskew : timestampSkewExceeded now
        (jsParseInt (headersGet (lowerHeaders rawHeaders) ("x-timestamp"))) = true := by
      rw [hjs]
      exact decide_eq_true habs
    have hp : parseAndValidateRequest method path rawHeaders body now =
        Except.error (Err.validation ("Timestamp too old or too far in future")) := by
      simp only [parseAndValidateRequest, if_neg h1, if_neg h2, if_neg h3, if_neg h4,
        hskew, if_true]
    simp only [handleRequestValidation, hp]

theorem C4_witness :
    (headersGet (lowerHeaders noSignatureHeadersW) ("x-signature") = "" ∧
      handleRequestValidation ("GET") ("/api/health") noSignatureHeadersW none 1000000
          ⟨[], []⟩ =
        (Except.error (Err.validation ("Missing signature header")), ⟨[], []⟩)) ∧
    (headersGet requestW.headers ("x-signature") = "" ∧
      validateSignature requestW =
        Except.error (Err.security ("Missing signature") ("MISSING_SIGNATURE"))) ∧
    (jsParseInt (headersGet (lowerHeaders replayHeadersW) ("x-timestamp")) = some 1000000 ∧
      handleRequestValidation ("GET") ("/api/health") replayHeadersW none 2000000
          ⟨[], []⟩ =
        (Except.error (Err.validation ("Timestamp too old or too far in future")),
          ⟨[], []⟩)) := by
  refine ⟨⟨by decide, ?_⟩, ⟨by decide, ?_⟩, ⟨by decide, ?_⟩⟩
  · exact C4_amended_missing_signature_and_timestamp_skew.1 ("GET") ("/api/health")
      noSignatureHeadersW none 1000000 ⟨[], []⟩ (by decide) (by decide) (by decide)
      (by decide)
  · exact C4_amended_missing_signature_and_timestamp_skew.2.1 requestW (by decide)
  · exact C4_amended_missing_signature_and_timestamp_skew.2.2 ("GET") ("/api/health")
      replayHeadersW none 2000000 ⟨[], []⟩ 1000000 (by decide) (by decide) (by decide)
      (by decide) (by decide)

/-- C5: a request passes the rate-limit check exactly when fewer than 100
requests of the same client lie inside the sliding 60-second window (so
the first 100 in a window pass and the 101st fails with
`SecurityError(RATE_LIMIT_EXCEEDED)`), a passing request is recorded as
the in-window requests plus the new one, and the in-window and expired
requests partition the stored list — so as the window slides past the
earliest requests, exactly that many slots free up. -/
theorem C5_sliding_window_rate_limit (m : List (String × List Nat))
    (request : APIRequest) (now : Nat) :
    ((activeRequests m (getClientKey request) now).length < RATE_LIMIT_MAX_REQUESTS →
      validateRateLimit m request now =
        (Except.ok (), mapSet m (getClientKey request)
          (activeRequests m (getClientKey request) now ++ [now]))) ∧
    ((activeRequests m (getClientKey request) now).length ≥ RATE_LIMIT_MAX_REQUESTS →
      validateRateLimit m request now =
        (Except.error (Err.security ("Rate limit exceeded") ("RATE_LIMIT_EXCEEDED")), m)) ∧
    ((activeRequests m (getClientKey request) now).length +
        (((mapGet? m (getClientKey request)).getD []).filter
          (fun timestamp => !(decide (now - timestamp < RATE_LIMIT_WINDOW)))).length =
      ((mapGet? m (getClientKey request)).getD []).length) := by
  refine ⟨?_, ?_, ?_⟩
  · intro h
    simp only [activeRequests] at h
    simp only [validateRateLimit, if_neg (not_le.mpr h)]
    rfl
  · intro h
    simp only [activeRequests] at h
    simp only [validateRateLimit, if_pos h]
  · simp only [activeRequests]
    exact filter_length_partition _ _

theorem C5_witness :
    ((activeRequests [] (getClientKey requestW) 5).length < RATE_LIMIT_MAX_REQUESTS ∧
      validateRateLimit [] requestW 5 =
        (Except.ok (), mapSet [] (getClientKey requestW)
          (activeRequests [] (getClientKey requestW) 5 ++ [5]))) ∧
    ((activeRequests fullRateMapW (getClientKey requestW) 5).length ≥
        RATE_LIMIT_MAX_REQUESTS ∧
      validateRateLimit fullRateMapW requestW 5 =
        (Except.error (Err.security ("Rate limit exceeded") ("RATE_LIMIT_EXCEEDED")),
          fullRateMapW)) := by
  refine ⟨⟨by decide, ?_⟩, ⟨by decide, ?_⟩⟩
  · exact (C5_sliding_window_rate_limit [] requestW 5).1 (by decide)
  · exact (C5_sliding_window_rate_limit fullRateMapW requestW 5).2.1 (by decide)

/-- C6: for a login request from a client with at least 3 failed attempts
inside the rolling 24-hour window, an attempt made before the computed
lockout expiry (last in-window failure time plus base duration times 3
to the power of the failures beyond 3) is rejected with
`AuthenticationError`; whenever that lockout condition does not hold —
in particular at any time at or after the lockout expiry — the attempt
passes the brute-force check and is evaluated normally. -/
theorem C6_brute_force_lockout (la : List (String × List LoginAttempt))
    (request : APIRequest) (now : Nat)
    (hpath : request.path = ("/api/auth/login")) :
    ((activeFailed la (getClientKey request) now).length ≥ MAX_LOGIN_ATTEMPTS →
      now < lockoutExpiry la (getClientKey request) now →
      validateBruteForce la request now =
        Except.error (Err.authentication
          ("Account temporarily locked due to too many failed login attempts"))) ∧
    (¬((activeFailed la (getClientKey request) now).length ≥ MAX_LOGIN_ATTEMPTS ∧
        now < lockoutExpiry la (getClientKey request) now) →
      validateBruteForce la request now = Except.ok ()) := by
  constructor
  · intro hf hlt
    simp only [activeFailed] at hf
    simp only [lockoutExpiry, activeFailed] at hlt
    simp only [validateBruteForce, if_neg (not_not_intro hpath), if_pos hf, if_pos hlt]
  · intro hn
    by_cases hf : (activeFailed la (getClientKey request) now).length ≥ MAX_LOGIN_ATTEMPTS
    · have hge : ¬ now < lockoutExpiry la (getClientKey request) now :=
        fun hlt => hn ⟨hf, hlt⟩
      simp only [lockoutExpiry, activeFailed] at hge
      simp only [activeFailed] at hf
      simp only [validateBruteForce, if_neg (not_not_intro hpath), if_pos hf, if_neg hge]
    · simp only [activeFailed] at hf
      simp only [validateBruteForce, if_neg (not_not_intro hpath), if_neg hf]

theorem C6_witness :
    ((activeFailed loginAttemptsW (getClientKey requestLoginW) 1000).length ≥
        MAX_LOGIN_ATTEMPTS ∧
      1000 < lockoutExpiry loginAttemptsW (getClientKey requestLoginW) 1000 ∧
      validateBruteForce loginAttemptsW requestLoginW 1000 =
        Except.error (Err.authentication
          ("Account temporarily locked due to too many failed login attempts"))) ∧
    validateBruteForce loginAttemptsW requestLoginW 90000000 = Except.ok () := by
  refine ⟨⟨by decide, by decide, ?_⟩, ?_⟩
  · exact (C6_brute_force_lockout loginAttemptsW requestLoginW 1000 rfl).1
      (by decide) (by decide)
  · exact (C6_brute_force_lockout loginAttemptsW requestLoginW 90000000 rfl).2
      (by decide)

/-- C10: whenever `validateRateLimit` rejects a request (it throws any
error), the rate-limit map it returns is exactly the map it was given:
the rejected request is not recorded, no slot is consumed and the
client's window is not extended. -/
theorem C10_rejected_request_leaves_map_unchanged (m : List (String × List Nat))
    (request : APIRequest) (now : Nat) (e : Err)
    (h : (validateRateLimit m request now).1 = Except.error e) :
    (validateRateLimit m request now).2 = m := by
  by_cases hc : (((mapGet? m (getClientKey request)).getD []).filter
      (fun timestamp => now - timestamp < RATE_LIMIT_WINDOW)).length ≥
      RATE_LIMIT_MAX_REQUESTS
  · simp only [validateRateLimit, if_pos hc]
  · simp only [validateRateLimit, if_neg hc] at h
    exact Except.noConfusion h

theorem C10_witness :
    (validateRateLimit fullRateMapW requestW 5).1 =
      Except.error (Err.security ("Rate limit exceeded") ("RATE_LIMIT_EXCEEDED")) ∧
    (validateRateLimit fullRateMapW requestW 5).2 = fullRateMapW :=
  ⟨rfl,
   C10_rejected_request_leaves_map_unchanged fullRateMapW requestW 5
     (Err.security ("Rate limit exceeded") ("RATE_LIMIT_EXCEEDED")) rfl⟩
